import Mathlib

/-!
Shallow embedding of the conversation-state and prompt-templating engine of
`openai_agent/agent.py` (class `OpenAIAgent`).  Python strings are `String`,
Python `None`-able strings are `Option String`, the in-place mutation of the
agent object is explicit state passing (each method takes and returns an
`Agent`), and the remote Completion Provider is abstracted: a successful call
is parameterised by the text of the first returned candidate, and a failing
call (`ProviderError`) stops execution at the point of the call, so the state
at that point is the state the caller observes.
-/

namespace AgentSpec

/-- Python exceptions that the embedded code can raise. -/
inductive PyErr where
  | typeError
  | attributeError
  | providerError
deriving DecidableEq, Repr

/-- Python truthiness of an optional string: `None` and `""` are falsy. -/
def pyTruthy : Option String → Bool
  | none => false
  | some s => s ≠ ""

/-- Python `x or y` where `x` is an optional string and `y` a string:
returns `y` when `x` is falsy (`None` or `""`). -/
def pyOr (x : Option String) (y : String) : String :=
  match x with
  | none => y
  | some s => if s = "" then y else s

/-- Python `x or y` where both are optional strings. -/
def pyOrOpt (x y : Option String) : Option String :=
  match x with
  | none => y
  | some s => if s = "" then y else some s

/-- Python `str.format` interpolation of a possibly-`None` value:
`None` renders as the text `"None"`. -/
def pyStr : Option String → String
  | none => "None"
  | some s => s

/-- The character class Python's default `str.strip` removes (ASCII
whitespace as in `str.isspace`). -/
def pyIsSpace (c : Char) : Bool :=
  c == ' ' || c == '\t' || c == '\n' || c == '\r' || c == '\x0b' || c == '\x0c'

/-- Python `s.strip()`: remove leading and trailing whitespace. -/
def pyStrip (s : String) : String :=
  ⟨((s.data.dropWhile pyIsSpace).reverse.dropWhile pyIsSpace).reverse⟩

/-- `re.sub("(\n)*$", "", s)`: delete the trailing run of newline characters. -/
def stripTrailingNewlines (s : String) : String :=
  ⟨(s.data.reverse.dropWhile (· == '\n')).reverse⟩

/-- The state of an `OpenAIAgent` object.  `agent_name_` is `_agent_name`,
`conversation_` is `_conversation__` (`None` until a conversation exists),
`username` is `self.username`.  `available_engines` is the resolved list the
environment / API returned at construction; the credential plumbing,
generation-parameter dictionary and `conversation_start_time` are not touched
by any claim and are omitted. -/
structure Agent where
  agent_name_ : String
  engine : String
  available_engines : List String
  conversation_ : Option String
  username : Option String
  is_conversation_active : Bool
  messages : List String
  replies : List String
deriving DecidableEq, Repr

/-- Property `name`: `self._agent_name if self._agent_name not in
self.get_available_engines() else self.engine.upper()`. -/
def name (a : Agent) : String :=
  if a.agent_name_ ∈ a.available_engines then a.engine.toUpper else a.agent_name_

/-- Property `conversation`: `self._conversation__ or ""`. -/
def conversation (a : Agent) : String :=
  pyOr a.conversation_ ""

/-- The `USERNAME` argument of the start template:
`f"a person named {user_name}" if user_name else "a human"`. -/
def userDesc : Option String → String
  | none => "a human"
  | some s => if s = "" then "a human" else "a person named " ++ s

/-- The default `START_TEMPLATE` rendered with an agent name and a user
description.  The class constant is stripped and `__init__` appends `"\n"`;
note the trailing space after "friendly." kept from the source. -/
def START_TEMPLATE_render (agentName ud : String) : String :=
  "The following is a conversation with an AI. The AI is helpful, apolitical, clever, and very friendly. \nThe AI's name is "
    ++ agentName ++ " and is talking with " ++ ud ++ ".\n"

/-- The default `MSG_TEMPLATE` (`"{user_name}:{MSG}\n{AGENT_NAME}:"`)
rendered with a user name, an agent name and message text. -/
def MSG_TEMPLATE_render (userName agentName msg : String) : String :=
  userName ++ ":" ++ msg ++ "\n" ++ agentName ++ ":"

/-- `start_conversation(user_name=None)`: replaces the transcript with the
rendered start template, marks the conversation active, and records
`user_name or "HUMAN"` as the username.  (`conversation_start_time` omitted.) -/
def start_conversation (a : Agent) (user_name : Option String) : Agent :=
  { a with
    conversation_ := some (START_TEMPLATE_render (name a) (userDesc user_name)),
    is_conversation_active := true,
    username := some (pyOr user_name "HUMAN") }

/-- `set_conversation(conversation)`: replaces the transcript verbatim. -/
def set_conversation (a : Agent) (c : String) : Agent :=
  { a with conversation_ := some c }

/-- `make_chat_prompt(msg, username=None, continue_conversation=True)`.
The local `username = username or self.username` is evaluated before the
possible lazy `start_conversation()` (which is called with NO argument);
`msg.strip()` is `pyStrip`. Returns the new state and the prompt. -/
def make_chat_prompt (a : Agent) (msg : String) (username : Option String)
    (continue_conversation : Bool) : Agent × String :=
  let uname := pyOrOpt username a.username
  let a' := if !a.is_conversation_active || !continue_conversation then
              start_conversation a none
            else a
  (a', MSG_TEMPLATE_render (pyStr uname) (name a') (pyStrip msg))

/-- `update_conversation(msg, reply=None)`.  Python evaluates the right-hand
side `self.conversation + self.make_chat_prompt(msg) + reply.strip() + "\n"`
left to right: `self.conversation` is read BEFORE `make_chat_prompt` runs (and
before its possible lazy `start_conversation` replaces the transcript); the
assignment then overwrites the transcript with the concatenation.  `msg` is
always appended to the message log; `reply` is appended to the reply log only
when truthy. -/
def update_conversation (a : Agent) (msg : String) (reply : Option String) : Agent :=
  let reply' := pyOr reply ""
  let oldConv := conversation a
  let mcp := make_chat_prompt a msg none true
  let a1 := mcp.1
  { a1 with
    conversation_ := some (oldConv ++ mcp.2 ++ pyStrip reply' ++ "\n"),
    messages := a1.messages ++ [msg],
    replies := if reply' = "" then a1.replies else a1.replies ++ [reply'] }

/-- `send_message(msg)`: `update_conversation(msg, None)`. -/
def send_message (a : Agent) (msg : String) : Agent :=
  update_conversation a msg none

/-- The moment `get_reply` invokes the Completion Provider: the state at that
point (`pre`), the prompt and stop sequences passed, and the message string
that will be logged afterwards. -/
structure ReplyCall where
  pre : Agent
  prompt : String
  stop : List String
  loggedMsg : String
deriving Repr

/-- The first half of `get_reply(msg)`: prompt construction up to the
provider call.  `if msg:` — a given non-empty message renders a turn prefix
(possibly lazily starting a conversation); otherwise `prompt` is the current
transcript and the logged message is `""`.  The provider receives
`self.conversation + prompt` (transcript read AFTER the possible lazy start)
and stop sequences `[(self.username or "HUMAN") + ":", self.name + ":"]`. -/
def get_reply_call (a : Agent) (msg : Option String) : ReplyCall :=
  if pyTruthy msg then
    let m := msg.getD ""
    let mcp := make_chat_prompt a m none true
    let a1 := mcp.1
    { pre := a1,
      prompt := conversation a1 ++ mcp.2,
      stop := [pyOr a1.username "HUMAN" ++ ":", name a1 ++ ":"],
      loggedMsg := m }
  else
    { pre := a,
      prompt := conversation a ++ conversation a,
      stop := [pyOr a.username "HUMAN" ++ ":", name a ++ ":"],
      loggedMsg := "" }

/-- Cleaning of the provider's candidate text in `get_reply`:
`re.sub("(\n)*$", "", text.strip())`. -/
def clean_reply (t : String) : String :=
  stripTrailingNewlines (pyStrip t)

/-- `get_reply(msg)` when the Completion Provider succeeds and its first
candidate's text is `providerText`: cleans the text, calls
`update_conversation`, and returns the cleaned reply. -/
def get_reply (a : Agent) (msg : Option String) (providerText : String) :
    Agent × String :=
  let c := get_reply_call a msg
  let reply_txt := clean_reply providerText
  (update_conversation c.pre c.loggedMsg (some reply_txt), reply_txt)

/-- `get_reply(msg)` when the Completion Provider raises `ProviderError`:
the exception propagates, so the caller observes the state as it was at the
moment of the provider call. -/
def get_reply_fail (a : Agent) (msg : Option String) : Agent :=
  (get_reply_call a msg).pre

/-- `get_single_reply(msg, user_name=None)`.  The local
`user_name = user_name or self.username` is resolved from the OLD state, then
`make_chat_prompt(msg, continue_conversation=False)` force-restarts the
conversation.  Building the stop list `[user_name + ":", ...]` raises
`TypeError` when `user_name` is still `None`; otherwise the provider is
queried with just the rendered prompt and the raw candidate text
`providerText` is returned untrimmed.  Either way the resulting state is the
one after the forced restart. -/
def get_single_reply (a : Agent) (msg : String) (user_name : Option String)
    (providerText : String) : Agent × Except PyErr String :=
  let un := pyOrOpt user_name a.username
  let mcp := make_chat_prompt a msg none false
  match un with
  | none => (mcp.1, Except.error PyErr.typeError)
  | some _ => (mcp.1, Except.ok providerText)

/-- Python attribute lookup of `.append` on a value: lists have it (in-place
extend, returns `None`), strings do not (`AttributeError`). -/
inductive PyVal where
  | vNone
  | vStr (s : String)
  | vList (xs : List PyVal)

/-- Method resolution for `.append` on a Python value: defined only on lists,
where `xs.append(v)` mutates the receiver and evaluates to `None`. -/
def pyAppendMethod : PyVal → Option (PyVal → PyVal × PyVal)
  | PyVal.vList xs => some (fun v => (PyVal.vList (xs ++ [v]), PyVal.vNone))
  | _ => none

/-- `add_to_conversation(string)`: evaluates
`self.conversation.append(string)` — the receiver is a `str`, which has no
`append` attribute, so `AttributeError` is raised and the assignment to
`_conversation__` never executes. -/
def add_to_conversation (a : Agent) (s : String) : Agent × Except PyErr Unit :=
  match pyAppendMethod (PyVal.vStr (conversation a)) with
  | none => (a, Except.error PyErr.attributeError)
  | some f =>
    let r := (f (PyVal.vStr s)).2
    ({ a with conversation_ := match r with
        | PyVal.vStr t => some t
        | _ => none },
     Except.ok ())

/-- A freshly constructed agent (`__init__` with an explicit display name that
is not an engine id): no conversation yet, inactive,`username = None`, empty
logs.  The engine / available-engine fields reflect a construction where the
requested engine was in the available list, as `__init__` requires. -/
def mkAgent (nm : String) : Agent :=
  { agent_name_ := nm, engine := "text-davinci-003",
    available_engines := ["text-davinci-003"],
    conversation_ := none, username := none,
    is_conversation_active := false, messages := [], replies := [] }

/-- The shapes a transcript suffix can take when it is built purely by the
append step of `update_conversation` on an active conversation: a
concatenation of blocks, each a rendered message template (with the stripped
message) followed by the stripped reply followed by a newline. -/
inductive Chunks (nm : String) : String → Prop where
  | nil : Chunks nm ""
  | snoc (rest u m r : String) : Chunks nm rest →
      Chunks nm (rest ++ (MSG_TEMPLATE_render u nm (pyStrip m) ++ pyStrip r ++ "\n"))

/-- The transcript shape asserted by the spec's transcript invariant: the
rendered start template followed by turn blocks. -/
def goodTranscript (nm conv : String) : Prop :=
  ∃ uo rest, conv = START_TEMPLATE_render nm (userDesc uo) ++ rest ∧ Chunks nm rest

/-- The public operations that mutate conversation state, with the provider's
candidate text supplied as data where a provider call occurs.
`set_conversation` is kept separate (the invariant claims except it). -/
inductive Op where
  | startConv (u : Option String)
  | sendMsg (m : String)
  | updateConv (m : String) (r : Option String)
  | reqReply (m : Option String) (t : String)
  | singleReply (m : String) (u : Option String) (t : String)
  | chatPrompt (m : String) (u : Option String) (c : Bool)

/-- Run one operation on the agent state. -/
def runOp (a : Agent) : Op → Agent
  | Op.startConv u => start_conversation a u
  | Op.sendMsg m => send_message a m
  | Op.updateConv m r => update_conversation a m r
  | Op.reqReply m t => (get_reply a m t).1
  | Op.singleReply m u t => (get_single_reply a m u t).1
  | Op.chatPrompt m u c => (make_chat_prompt a m u c).1

/-- Run a sequence of operations. -/
def runOps (a : Agent) (ops : List Op) : Agent :=
  ops.foldl runOp a

/-- The operations of the append-only growth claim: `update_conversation` and
`send_message` calls. -/
inductive UpdOp where
  | upd (m : String) (r : Option String)
  | send (m : String)

/-- Run one `update_conversation` / `send_message` call. -/
def runUpdOp (a : Agent) : UpdOp → Agent
  | UpdOp.upd m r => update_conversation a m r
  | UpdOp.send m => send_message a m

/-- Run a sequence of `update_conversation` / `send_message` calls. -/
def runUpdOps (a : Agent) (ops : List UpdOp) : Agent :=
  ops.foldl runUpdOp a

/-- `s` is a proper prefix of `t`: `t` is `s` followed by a non-empty rest. -/
def properPrefix (s t : String) : Prop :=
  ∃ c, c ≠ "" ∧ t = s ++ c

/-- The transcript invariant of the spec, as a predicate on agent states: the
conversation is active and the transcript is a rendered start template
followed by appended turn blocks. -/
def Inv (a : Agent) : Prop :=
  a.is_conversation_active = true ∧ goodTranscript (name a) (conversation a)



theorem pyOr_some_empty (s : String) : pyOr (some s) "" = s := by
  by_cases h : s = "" <;> simp [pyOr, h]

theorem conversation_start (a : Agent) (u : Option String) :
    conversation (start_conversation a u)
      = START_TEMPLATE_render (name a) (userDesc u) := by
  simp [start_conversation, conversation, pyOr_some_empty, name]

theorem name_start (a : Agent) (u : Option String) :
    name (start_conversation a u) = name a := rfl

theorem mcp_fst (a : Agent) (m : String) (u : Option String) (c : Bool) :
    (make_chat_prompt a m u c).1
      = if !a.is_conversation_active || !c then start_conversation a none else a := rfl

theorem mcp_fst_active (a : Agent) (m : String) (u : Option String)
    (ha : a.is_conversation_active = true) :
    (make_chat_prompt a m u true).1 = a := by
  rw [mcp_fst, ha]
  rfl

theorem name_mcp (a : Agent) (m : String) (u : Option String) (c : Bool) :
    name (make_chat_prompt a m u c).1 = name a := by
  rw [mcp_fst]
  split
  · exact name_start a none
  · rfl

theorem messages_mcp (a : Agent) (m : String) (u : Option String) (c : Bool) :
    (make_chat_prompt a m u c).1.messages = a.messages := by
  rw [mcp_fst]
  split <;> rfl

theorem replies_mcp (a : Agent) (m : String) (u : Option String) (c : Bool) :
    (make_chat_prompt a m u c).1.replies = a.replies := by
  rw [mcp_fst]
  split <;> rfl



/-- C9: for every engine state and every string argument, the public
`add_to_conversation` operation raises `AttributeError` (a Python `str` has no
`append` method) and leaves the whole state, in particular the transcript,
unchanged: the advertised append operation can never succeed. -/
theorem add_to_conversation_always_fails (a : Agent) (s : String) :
    add_to_conversation a s = (a, Except.error PyErr.attributeError) := rfl

/-- C1 (amended): if the conversation is active when `get_reply` is called,
a Completion Provider failure (`ProviderError`) leaves the whole engine state
— in particular the transcript — exactly as it was, because the failure
occurs before `update_conversation` is invoked.  (The original claim, for
EVERY engine state, fails: on an inactive state the lazy
`start_conversation` inside prompt construction replaces the transcript
before the provider call; see the counterexample.) -/
theorem get_reply_provider_failure_preserves_active_state (a : Agent)
    (msg : Option String) (ha : a.is_conversation_active = true) :
    get_reply_fail a msg = a := by
  unfold get_reply_fail get_reply_call
  split
  · exact mcp_fst_active a (msg.getD "") none ha
  · rfl

theorem get_reply_provider_failure_witness :
    (start_conversation (mkAgent "BOT") (some "Alice")).is_conversation_active = true
    ∧ get_reply_fail (start_conversation (mkAgent "BOT") (some "Alice")) (some "hi")
        = start_conversation (mkAgent "BOT") (some "Alice") :=
  ⟨by decide,
   get_reply_provider_failure_preserves_active_state
     (start_conversation (mkAgent "BOT") (some "Alice")) (some "hi") (by decide)⟩

/-- C1 counterexample: on a fresh (inactive) agent, a failed completion call
for message "hi" does NOT leave the conversation buffer unchanged — the lazy
start has already replaced the empty transcript with the rendered start
template. -/
theorem get_reply_provider_failure_lazy_start_cex :
    conversation (mkAgent "BOT") = ""
    ∧ conversation (get_reply_fail (mkAgent "BOT") (some "hi"))
        = START_TEMPLATE_render "BOT" "a human"
    ∧ conversation (get_reply_fail (mkAgent "BOT") (some "hi"))
        ≠ conversation (mkAgent "BOT") := by
  refine ⟨rfl, by decide, by decide⟩

/-- C2 (amended): when a non-empty message is given, the prompt passed to
the Completion Provider is the transcript (as it stands at the provider call,
i.e. after any lazy start) followed by the rendered turn prefix; when the
message is absent, the prompt is the current transcript concatenated with
itself (NOT exactly the transcript, as the original claim states — `get_reply`
passes `self.conversation + prompt` where `prompt` was set to
`self.conversation`). -/
theorem get_reply_prompt_shape (a : Agent) (m : String) (hm : m ≠ "") :
    (get_reply_call a (some m)).prompt
      = conversation (get_reply_call a (some m)).pre
          ++ (make_chat_prompt a m none true).2
    ∧ (get_reply_call a none).prompt = conversation a ++ conversation a := by
  constructor
  · unfold get_reply_call
    have ht : pyTruthy (some m) = true := by simp [pyTruthy, hm]
    rw [ht]
    rfl
  · rfl

theorem get_reply_prompt_shape_witness :
    (get_reply_call (mkAgent "BOT") (some "hi")).prompt
      = conversation (get_reply_call (mkAgent "BOT") (some "hi")).pre
          ++ (make_chat_prompt (mkAgent "BOT") "hi" none true).2
    ∧ (get_reply_call (mkAgent "BOT") none).prompt
        = conversation (mkAgent "BOT") ++ conversation (mkAgent "BOT") :=
  get_reply_prompt_shape (mkAgent "BOT") "hi" (by decide)

/-- C2 counterexample: with transcript "X" and no message, the prompt passed
is "XX", not the transcript "X". -/
theorem get_reply_prompt_absent_doubles_cex :
    (get_reply_call (set_conversation (mkAgent "BOT") "X") none).prompt
        ≠ conversation (set_conversation (mkAgent "BOT") "X")
    ∧ (get_reply_call (set_conversation (mkAgent "BOT") "X") none).prompt
        = conversation (set_conversation (mkAgent "BOT") "X")
            ++ conversation (set_conversation (mkAgent "BOT") "X") := by
  exact ⟨by decide, by decide⟩

/-- C4 (amended): whenever the conversation is inactive or
`continue_conversation` is false, `make_chat_prompt` first performs
`start_conversation` with NO argument: the recorded username becomes the
default "HUMAN" — not the `humanName` argument — and the start template is
rendered with "a human"; the `humanName` argument is used only for the
turn-prefix rendering. -/
theorem lazy_start_ignores_username (a : Agent) (m : String) (u : Option String)
    (c : Bool) (h : a.is_conversation_active = false ∨ c = false) :
    (make_chat_prompt a m u c).1 = start_conversation a none
    ∧ (start_conversation a none).username = some "HUMAN"
    ∧ conversation (start_conversation a none)
        = START_TEMPLATE_render (name a) "a human" := by
  refine ⟨?_, rfl, conversation_start a none⟩
  rw [mcp_fst]
  rcases h with h | h <;> rw [h] <;> simp

theorem lazy_start_ignores_username_witness :
    ((mkAgent "BOT").is_conversation_active = false ∨ true = false)
    ∧ ((make_chat_prompt (mkAgent "BOT") "hi" (some "Alice") true).1
          = start_conversation (mkAgent "BOT") none
       ∧ (start_conversation (mkAgent "BOT") none).username = some "HUMAN"
       ∧ conversation (start_conversation (mkAgent "BOT") none)
           = START_TEMPLATE_render (name (mkAgent "BOT")) "a human") :=
  ⟨Or.inl (by decide),
   lazy_start_ignores_username (mkAgent "BOT") "hi" (some "Alice") true
     (Or.inl (by decide))⟩

/-- C4 counterexample: calling `make_chat_prompt` with username "Alice" on a
fresh agent records "HUMAN", not "Alice", and renders the start template with
"a human", not "a person named Alice". -/
theorem lazy_start_records_default_cex :
    (make_chat_prompt (mkAgent "BOT") "hi" (some "Alice") true).1.username
        = some "HUMAN"
    ∧ (make_chat_prompt (mkAgent "BOT") "hi" (some "Alice") true).1.username
        ≠ some "Alice"
    ∧ conversation (make_chat_prompt (mkAgent "BOT") "hi" (some "Alice") true).1
        = START_TEMPLATE_render "BOT" "a human"
    ∧ START_TEMPLATE_render "BOT" "a human"
        ≠ START_TEMPLATE_render "BOT" "a person named Alice" := by
  exact ⟨by decide, by decide, by decide, by decide⟩



theorem get_single_reply_fst (a : Agent) (m : String) (u : Option String)
    (t : String) :
    (get_single_reply a m u t).1 = start_conversation a none := by
  have hmcp : (make_chat_prompt a m none false).1 = start_conversation a none := by
    rw [mcp_fst]
    simp
  unfold get_single_reply
  cases pyOrOpt u a.username
  · exact hmcp
  · exact hmcp

/-- C5 (amended): `get_single_reply` leaves the message log and the reply
log unchanged and appends nothing, but it does NOT leave the transcript
unchanged: the forced `continue_conversation=False` restart replaces the
transcript with a freshly rendered start template ("a human" variant). -/
theorem get_single_reply_frame (a : Agent) (m : String) (u : Option String)
    (t : String) :
    (get_single_reply a m u t).1.messages = a.messages
    ∧ (get_single_reply a m u t).1.replies = a.replies
    ∧ conversation (get_single_reply a m u t).1
        = START_TEMPLATE_render (name a) "a human" := by
  rw [get_single_reply_fst]
  exact ⟨rfl, rfl, conversation_start a none⟩

/-- C5 counterexample: on a state with transcript "X", `get_single_reply`
replaces the transcript with the rendered start template, so the transcript
is changed. -/
theorem get_single_reply_replaces_transcript_cex :
    conversation (set_conversation (mkAgent "BOT") "X") = "X"
    ∧ conversation
        (get_single_reply (set_conversation (mkAgent "BOT") "X") "hi"
          (some "Alice") "ok").1
        = START_TEMPLATE_render "BOT" "a human"
    ∧ conversation
        (get_single_reply (set_conversation (mkAgent "BOT") "X") "hi"
          (some "Alice") "ok").1
        ≠ conversation (set_conversation (mkAgent "BOT") "X") := by
  exact ⟨by decide, by decide, by decide⟩

/-- C7: for every `get_reply` call on a state whose recorded human name is
`h` (non-empty, conversation active), the stop sequences passed to the
Completion Provider are exactly `[h ++ ":", name ++ ":"]` where `name` is the
agent display name. -/
theorem get_reply_stop_sequences (a : Agent) (msg : Option String) (h : String)
    (hu : a.username = some h) (hne : h ≠ "")
    (ha : a.is_conversation_active = true) :
    (get_reply_call a msg).stop = [h ++ ":", name a ++ ":"] := by
  have hpy : pyOr a.username "HUMAN" = h := by
    rw [hu]
    simp [pyOr, hne]
  unfold get_reply_call
  split
  · dsimp only
    rw [mcp_fst_active a (msg.getD "") none ha, hpy]
  · dsimp only
    rw [hpy]

theorem get_reply_stop_sequences_witness :
    (get_reply_call (start_conversation (mkAgent "BOT") (some "Alice"))
        (some "hi")).stop = ["Alice:", "BOT:"] := by
  have h := get_reply_stop_sequences
    (start_conversation (mkAgent "BOT") (some "Alice")) (some "hi") "Alice"
    (by decide) (by decide) (by decide)
  rw [h]
  decide

/-- C10: calling `get_single_reply` without an explicit `user_name` while
the stored username is still `None` raises `TypeError` while building the
stop sequences (concatenating `None` with ":") instead of falling back to the
default human name, and by that point the transcript has already been
replaced with a freshly rendered start template. -/
theorem get_single_reply_none_username_typeerror (a : Agent) (m t : String)
    (hu : a.username = none) :
    (get_single_reply a m none t).2 = Except.error PyErr.typeError
    ∧ conversation (get_single_reply a m none t).1
        = START_TEMPLATE_render (name a) "a human" := by
  constructor
  · unfold get_single_reply
    simp [pyOrOpt, hu]
  · rw [get_single_reply_fst]
    exact conversation_start a none

theorem get_single_reply_none_username_typeerror_witness :
    (mkAgent "BOT").username = none
    ∧ ((get_single_reply (mkAgent "BOT") "hi" none "ok").2
          = Except.error PyErr.typeError
       ∧ conversation (get_single_reply (mkAgent "BOT") "hi" none "ok").1
           = START_TEMPLATE_render (name (mkAgent "BOT")) "a human") :=
  ⟨rfl, get_single_reply_none_username_typeerror (mkAgent "BOT") "hi" "ok" rfl⟩

theorem update_messages (a : Agent) (m : String) (r : Option String) :
    (update_conversation a m r).messages = a.messages ++ [m] := by
  unfold update_conversation
  simp [messages_mcp]

theorem update_replies (a : Agent) (m : String) (r : Option String) :
    (update_conversation a m r).replies
      = if pyOr r "" = "" then a.replies else a.replies ++ [pyOr r ""] := by
  unfold update_conversation
  split <;> simp_all [replies_mcp]

theorem grc_pre_messages (a : Agent) (msg : Option String) :
    (get_reply_call a msg).pre.messages = a.messages := by
  unfold get_reply_call
  split
  · exact messages_mcp a (msg.getD "") none true
  · rfl

theorem grc_pre_replies (a : Agent) (msg : Option String) :
    (get_reply_call a msg).pre.replies = a.replies := by
  unfold get_reply_call
  split
  · exact replies_mcp a (msg.getD "") none true
  · rfl

theorem grc_loggedMsg (a : Agent) (msg : Option String) :
    (get_reply_call a msg).loggedMsg = msg.getD "" := by
  unfold get_reply_call
  split
  · rfl
  · next hf =>
    cases msg with
    | none => rfl
    | some s =>
      have hs : s = "" := by simpa [pyTruthy] using hf
      rw [hs]
      rfl

/-- C8: every `get_reply` call that produces a (non-empty cleaned) reply
appends the resolved message to the message log and the cleaned reply to the
reply log — both logs grow by one, in lockstep — and every `send_message`
call appends only to the message log, leaving the reply log unchanged. -/
theorem logs_lockstep (a : Agent) (msg : Option String) (t m2 : String)
    (hr : clean_reply t ≠ "") :
    ((get_reply a msg t).1.messages = a.messages ++ [msg.getD ""]
     ∧ (get_reply a msg t).1.replies = a.replies ++ [clean_reply t])
    ∧ ((send_message a m2).messages = a.messages ++ [m2]
       ∧ (send_message a m2).replies = a.replies) := by
  refine ⟨⟨?_, ?_⟩, ?_, ?_⟩
  · show (update_conversation (get_reply_call a msg).pre
      (get_reply_call a msg).loggedMsg (some (clean_reply t))).messages = _
    rw [update_messages, grc_pre_messages, grc_loggedMsg]
  · show (update_conversation (get_reply_call a msg).pre
      (get_reply_call a msg).loggedMsg (some (clean_reply t))).replies = _
    rw [update_replies, grc_pre_replies, pyOr_some_empty]
    simp [hr]
  · exact update_messages a m2 none
  · show (update_conversation a m2 none).replies = a.replies
    rw [update_replies]
    simp [pyOr]



theorem logs_lockstep_witness :
    clean_reply "hello" ≠ ""
    ∧ (((get_reply (start_conversation (mkAgent "BOT") (some "Alice"))
            (some "hi") "hello").1.messages
          = (start_conversation (mkAgent "BOT") (some "Alice")).messages
              ++ [(some "hi").getD ""]
        ∧ (get_reply (start_conversation (mkAgent "BOT") (some "Alice"))
            (some "hi") "hello").1.replies
          = (start_conversation (mkAgent "BOT") (some "Alice")).replies
              ++ [clean_reply "hello"])
       ∧ ((send_message (start_conversation (mkAgent "BOT") (some "Alice"))
            "bye").messages
          = (start_conversation (mkAgent "BOT") (some "Alice")).messages ++ ["bye"]
          ∧ (send_message (start_conversation (mkAgent "BOT") (some "Alice"))
            "bye").replies
            = (start_conversation (mkAgent "BOT") (some "Alice")).replies)) :=
  ⟨by decide,
   logs_lockstep (start_conversation (mkAgent "BOT") (some "Alice")) (some "hi")
     "hello" "bye" (by decide)⟩

theorem conversation_update (a : Agent) (m : String) (r : Option String) :
    conversation (update_conversation a m r)
      = conversation a ++ (make_chat_prompt a m none true).2
          ++ pyStrip (pyOr r "") ++ "\n" := by
  unfold update_conversation
  dsimp only
  exact pyOr_some_empty _

theorem append_newline_ne_empty (x y : String) : x ++ (y ++ "\n") ≠ "" := by
  intro h
  have h2 := congrArg String.data h
  simp [String.data_append] at h2

theorem runUpdOp_properPrefix (a : Agent) (op : UpdOp) :
    properPrefix (conversation a) (conversation (runUpdOp a op)) := by
  have key : ∀ m r,
      properPrefix (conversation a) (conversation (update_conversation a m r)) := by
    intro m r
    refine ⟨(make_chat_prompt a m none true).2 ++ (pyStrip (pyOr r "") ++ "\n"),
      append_newline_ne_empty _ _, ?_⟩
    rw [conversation_update, String.append_assoc, String.append_assoc]
  cases op with
  | upd m r => exact key m r
  | send m => exact key m none

/-- C6: for any sequence of `update_conversation` / `send_message` calls
with no intervening `start_conversation` / `set_conversation`, the transcript
after call N is a proper prefix of the transcript after call N+1, for every
starting state and every choice of messages and replies. -/
theorem transcript_append_only_growth (a : Agent) (ops : List UpdOp) (n : Nat)
    (h : n + 1 ≤ ops.length) :
    properPrefix (conversation (runUpdOps a (ops.take n)))
      (conversation (runUpdOps a (ops.take (n + 1)))) := by
  have hn : n < ops.length := h
  have htake : ops.take (n + 1) = ops.take n ++ [ops[n]] := by
    rw [List.take_succ, List.getElem?_eq_getElem hn]
    rfl
  have hrun : runUpdOps a (ops.take (n + 1))
      = runUpdOp (runUpdOps a (ops.take n)) ops[n] := by
    rw [htake]
    unfold runUpdOps
    rw [List.foldl_append]
    rfl
  rw [hrun]
  exact runUpdOp_properPrefix _ _

theorem transcript_append_only_growth_witness :
    0 + 1 ≤ [UpdOp.send "hi"].length
    ∧ properPrefix
        (conversation (runUpdOps (mkAgent "BOT") ([UpdOp.send "hi"].take 0)))
        (conversation (runUpdOps (mkAgent "BOT") ([UpdOp.send "hi"].take (0 + 1)))) :=
  ⟨by decide,
   transcript_append_only_growth (mkAgent "BOT") [UpdOp.send "hi"] 0 (by decide)⟩



theorem inv_start (a : Agent) (u : Option String) : Inv (start_conversation a u) := by
  refine ⟨rfl, u, "", ?_, Chunks.nil⟩
  rw [conversation_start, name_start]
  exact (String.append_empty _).symm

theorem mcp_snd_active (a : Agent) (m : String) (u : Option String)
    (ha : a.is_conversation_active = true) :
    (make_chat_prompt a m u true).2
      = MSG_TEMPLATE_render (pyStr (pyOrOpt u a.username)) (name a) (pyStrip m) := by
  unfold make_chat_prompt
  dsimp only
  rw [ha]
  rfl

theorem name_update (a : Agent) (m : String) (r : Option String) :
    name (update_conversation a m r) = name a := by
  unfold update_conversation
  dsimp only
  exact name_mcp a m none true

theorem active_update (a : Agent) (m : String) (r : Option String)
    (ha : a.is_conversation_active = true) :
    (update_conversation a m r).is_conversation_active = true := by
  have h1 : (update_conversation a m r).is_conversation_active
      = (make_chat_prompt a m none true).1.is_conversation_active := rfl
  rw [h1, mcp_fst_active a m none ha]
  exact ha

theorem inv_update (a : Agent) (m : String) (r : Option String) (h : Inv a) :
    Inv (update_conversation a m r) := by
  obtain ⟨ha, uo, rest, hconv, hch⟩ := h
  refine ⟨active_update a m r ha, ?_⟩
  unfold goodTranscript
  rw [name_update, conversation_update, mcp_snd_active a m none ha, hconv]
  refine ⟨uo, rest ++ (MSG_TEMPLATE_render (pyStr a.username) (name a) (pyStrip m)
      ++ pyStrip (pyOr r "") ++ "\n"), ?_,
    Chunks.snoc rest (pyStr a.username) m (pyOr r "") hch⟩
  rw [show pyOrOpt none a.username = a.username from rfl]
  rw [String.append_assoc, String.append_assoc, String.append_assoc,
    String.append_assoc]

theorem grc_pre_active (a : Agent) (msg : Option String)
    (ha : a.is_conversation_active = true) :
    (get_reply_call a msg).pre = a := by
  unfold get_reply_call
  split
  · exact mcp_fst_active a (msg.getD "") none ha
  · rfl

theorem Inv_runOp (a : Agent) (op : Op) (h : Inv a) : Inv (runOp a op) := by
  cases op with
  | startConv u => exact inv_start a u
  | sendMsg m => exact inv_update a m none h
  | updateConv m r => exact inv_update a m r h
  | reqReply m t =>
    have hr : (get_reply a m t).1
        = update_conversation a (get_reply_call a m).loggedMsg
            (some (clean_reply t)) := by
      show update_conversation (get_reply_call a m).pre
          (get_reply_call a m).loggedMsg (some (clean_reply t)) = _
      rw [grc_pre_active a m h.1]
    show Inv (get_reply a m t).1
    rw [hr]
    exact inv_update a _ _ h
  | singleReply m u t =>
    show Inv (get_single_reply a m u t).1
    rw [get_single_reply_fst]
    exact inv_start a none
  | chatPrompt m u c =>
    show Inv (make_chat_prompt a m u c).1
    rw [mcp_fst]
    split
    · exact inv_start a none
    · exact h

theorem Inv_runOps (ops : List Op) (a : Agent) (h : Inv a) : Inv (runOps a ops) := by
  induction ops generalizing a with
  | nil => exact h
  | cons op rest ih => exact ih (runOp a op) (Inv_runOp a op h)

/-- C3 (amended): every state reachable from a state just after
`start_conversation` — through any sequence of the public mutating operations
other than `set_conversation` — is active and has a transcript that begins
with a rendered start template and continues only with appended blocks of
rendered message-template text followed by stripped reply text followed by a
newline (full replacement by a further `start_conversation`, direct or forced,
restarts the shape).  (The original claim, over ALL reachable active states,
fails: `update_conversation` on an inactive state activates the conversation
but, because Python reads `self.conversation` before the lazy start runs, the
resulting transcript does not begin with the start template; see the
counterexample.) -/
theorem transcript_shape_invariant_from_start (a : Agent) (u : Option String)
    (ops : List Op) :
    (runOps (start_conversation a u) ops).is_conversation_active = true
    ∧ goodTranscript (name (runOps (start_conversation a u) ops))
        (conversation (runOps (start_conversation a u) ops)) :=
  Inv_runOps ops (start_conversation a u) (inv_start a u)

theorem startRender_head (nm ud rest : String) :
    (START_TEMPLATE_render nm ud ++ rest).data.head? = some 'T' := by
  have h1 : START_TEMPLATE_render nm ud ++ rest
      = "T" ++ ("he following is a conversation with an AI. The AI is helpful, apolitical, clever, and very friendly. \nThe AI's name is "
          ++ (nm ++ (" and is talking with " ++ (ud ++ (".\n" ++ rest))))) := by
    unfold START_TEMPLATE_render
    rw [String.append_assoc, String.append_assoc, String.append_assoc,
      String.append_assoc]
    rw [show ("The following is a conversation with an AI. The AI is helpful, apolitical, clever, and very friendly. \nThe AI's name is " : String)
        = "T" ++ "he following is a conversation with an AI. The AI is helpful, apolitical, clever, and very friendly. \nThe AI's name is "
      from by decide]
    rw [String.append_assoc]
  rw [h1, String.data_append]
  rfl

/-- C3 counterexample: `send_message "hi"` on a fresh agent yields an
ACTIVE state whose transcript is "None:hi\nBOT:\n", which does not begin
with any rendering of the start template, refuting the original invariant on
reachable active states. -/
theorem transcript_shape_invariant_cex :
    (send_message (mkAgent "BOT") "hi").is_conversation_active = true
    ∧ ¬ goodTranscript (name (send_message (mkAgent "BOT") "hi"))
        (conversation (send_message (mkAgent "BOT") "hi")) := by
  constructor
  · decide
  · intro hgt
    obtain ⟨uo, rest, hconv, _⟩ := hgt
    have hname : name (send_message (mkAgent "BOT") "hi") = "BOT" := by decide
    have hc : conversation (send_message (mkAgent "BOT") "hi")
        = "None:hi\nBOT:\n" := by decide
    rw [hname, hc] at hconv
    have hh : ("None:hi\nBOT:\n" : String).data.head?
        = (START_TEMPLATE_render "BOT" (userDesc uo) ++ rest).data.head? := by
      rw [hconv]
    rw [startRender_head] at hh
    exact absurd hh (by decide)

end AgentSpec
